import Mathlib

/-!
# Verification of the kacanopen master-side `Device` facade

This development gives a shallow embedding of `src/src/master/device.cpp`
(the `kaco::Device` class of the kacanopen CANopen master stack) and proves
properties of its object-dictionary handling, SDO retry policy, PDO receive
mappings and the remote TPDO remap sequence.

Modelling conventions:
* machine integers (`uint8_t`, `uint16_t`, `uint32_t`) are `Nat` with
  explicit `% 2 ^ w` / byte decomposition where the code truncates;
* the object dictionary `std::map<Address, Entry>` and the name index
  `std::unordered_map<std::string, Address>` are modelled as functions into
  `Option`; the C++ `operator[]` default-insertion is modelled explicitly;
* C++ exceptions are modelled by returning `Except DeviceError α` together
  with the device state as it stands when the exception escapes (C++ throws
  do not roll back earlier mutations);
* the CAN core (`m_core.sdo.upload` / `m_core.sdo.download`) is an oracle
  indexed by a running call counter, and every interaction with the core is
  recorded in an operation trace, so that ordering claims about issued SDO
  transfers become statements about that trace;
* log-only macros (`WARN`, `ERROR`, `DEBUG_LOG`, `DUMP`) have no effect on
  the modelled state and are dropped; human-readable message strings inside
  errors are kept only where a claim depends on them.
-/

namespace kaco

/-- Object dictionary address: 16-bit index and 8-bit subindex
(`struct Address` of kacanopen). -/
structure Address where
  index : Nat
  subindex : Nat
deriving DecidableEq, Repr

/-- CANopen data types (`enum class Type`).  The spec fixes a byte width for
each scalar type; `string`/`octet_string` have dynamic width and `invalid`
marks a default-constructed entry. -/
inductive Ty where
  | boolean
  | int8
  | int16
  | int32
  | int64
  | uint8
  | uint16
  | uint32
  | uint64
  | real32
  | real64
  | string
  | octet_string
  | invalid
deriving DecidableEq, Repr

/-- Little-endian byte encoding of a natural number into `n` bytes
(truncates to `n` bytes, as a cast to an `n`-byte unsigned integer does). -/
def encodeLE : Nat → Nat → List Nat
  | 0, _ => []
  | n + 1, v => v % 256 :: encodeLE n (v / 256)

/-- Little-endian byte decoding. -/
def decodeLE : List Nat → Nat
  | [] => 0
  | b :: bs => b + 256 * decodeLE bs

/-- A typed value: type tag plus raw little-endian byte payload
(`class Value`). -/
structure Value where
  type : Ty
  bytes : List Nat
deriving DecidableEq, Repr

/-- `Value` built from a C++ `uint32_t` (the `Value(uint32_t)` constructor):
type tag `uint32`, four little-endian bytes. -/
def Value.ofUInt32 (v : Nat) : Value :=
  { type := Ty.uint32, bytes := encodeLE 4 v }

/-- `Value` built from a C++ `uint8_t` (the `Value(uint8_t)` constructor). -/
def Value.ofUInt8 (v : Nat) : Value :=
  { type := Ty.uint8, bytes := encodeLE 1 v }

/-- The `operator uint32_t()` conversion of a `Value` holding a `uint32`:
decode the little-endian payload. -/
def Value.toUInt32 (v : Value) : Nat :=
  decodeLE v.bytes

/-- `enum class AccessType` of a dictionary entry. -/
inductive AccessType where
  | read_only
  | write_only
  | read_write
  | constant
deriving DecidableEq, Repr

/-- `enum class ReadAccessMethod`. -/
inductive ReadAccessMethod where
  | sdo
  | pdo
  | pdo_request_and_wait
  | use_default
deriving DecidableEq, Repr

/-- `enum class WriteAccessMethod`. -/
inductive WriteAccessMethod where
  | sdo
  | pdo
  | use_default
deriving DecidableEq, Repr

/-- A dictionary entry (`class Entry`): its address, canonical name, type,
access type, default access methods, cached value and disabled flag. -/
structure Entry where
  index : Nat
  subindex : Nat
  name : String
  type : Ty
  access_type : AccessType
  read_access_method : ReadAccessMethod
  write_access_method : WriteAccessMethod
  value : Value
  disabled : Bool
deriving DecidableEq, Repr

/-- A default-constructed `Entry` (what `std::map::operator[]` inserts for a
missing key): zero address, empty name, `invalid` type, empty value. -/
def defaultEntry : Entry :=
  { index := 0
    subindex := 0
    name := ""
    type := Ty.invalid
    access_type := AccessType.read_write
    read_access_method := ReadAccessMethod.use_default
    write_access_method := WriteAccessMethod.use_default
    value := { type := Ty.invalid, bytes := [] }
    disabled := false }

/-- `struct ReceivePDOMapping`: COB-ID, canonical entry name, byte offset. -/
structure ReceivePDOMapping where
  cob_id : Nat
  entry_name : String
  offset : Nat
deriving DecidableEq, Repr

/-- Kinds of `dictionary_error` (from `dictionary_error.h`, as enumerated in
the spec). -/
inductive DictErrorType where
  | unknown_entry
  | unknown_operation
  | unknown_constant
  | wrong_type
  | mapping_size
deriving DecidableEq, Repr

/-- Kinds of `sdo_error` (spec section 7:
`sdo_error{kind ∈ {response_timeout, abort, malformed, unknown}, abort_code?}`). -/
inductive SdoErrorKind where
  | response_timeout
  | abort
  | malformed
  | unknown
deriving DecidableEq, Repr

/-- A typed SDO failure: kind plus the 32-bit abort code when the kind is
`abort`. -/
structure SdoError where
  kind : SdoErrorKind
  abort_code : Option Nat
deriving DecidableEq, Repr

/-- Errors escaping `Device` methods: `dictionary_error`, `sdo_error` and
`canopen_error`. -/
inductive DeviceError where
  | dictionary_error (t : DictErrorType) (info : String)
  | sdo_error (e : SdoError)
  | canopen_error (msg : String)
deriving DecidableEq, Repr

/-- Modelled from the spec: `Utils::get_type_size` lives in
`src/master/utils.cpp`, which is not part of the provided sources.  Spec
section 3 fixes the byte width of each scalar type (`bool`/`i8`/`u8` one
byte, `i16`/`u16` two, `i32`/`u32`/`f32` four, 64-bit types eight) and says
string-like and invalid types have no fixed width; those return 0 here (the
source logs an error for them and the mapping-size check is the caller's). -/
def Utils.get_type_size : Ty → Nat
  | Ty.boolean => 1
  | Ty.int8 => 1
  | Ty.uint8 => 1
  | Ty.int16 => 2
  | Ty.uint16 => 2
  | Ty.int32 => 4
  | Ty.uint32 => 4
  | Ty.real32 => 4
  | Ty.int64 => 8
  | Ty.uint64 => 8
  | Ty.real64 => 8
  | Ty.string => 0
  | Ty.octet_string => 0
  | Ty.invalid => 0

/-- Split a character list into its maximal whitespace-free tokens
(`cur` accumulates the current token in reverse). -/
def wsTokensGo (cur : List Char) : List Char → List (List Char)
  | [] => if cur.isEmpty then [] else [cur.reverse]
  | c :: cs =>
    if c.isWhitespace then
      if cur.isEmpty then wsTokensGo [] cs else cur.reverse :: wsTokensGo [] cs
    else wsTokensGo (c :: cur) cs

/-- Modelled from the spec: `Utils::escape` (name canonicalisation) is in
`src/master/utils.cpp`, not in the provided sources.  Spec section 4.5:
lower-case, whitespace trimmed, internal whitespace collapsed to single
underscores (tokenising trims outer whitespace and collapses runs). -/
def Utils.escape (s : String) : String :=
  String.mk (List.intercalate ['_'] (wsTokensGo [] (s.data.map Char.toLower)))

/-- The mutable per-device state of `kaco::Device`: the object dictionary
`m_dictionary`, the name index `m_name_to_address`, the receive PDO mapping
list `m_receive_pdo_mappings` (front of the list = most recently added, as
for `std::forward_list::push_front`), the COB-IDs with a registered PDO
callback (`cob_ids_`, recording `m_core.pdo.add_pdo_received_callback`
registrations), the operation table `m_operations` and the constant table
`m_constants`.  Operations are `std::function` objects whose behaviour is
irrelevant here; they are modelled as opaque tokens (`Nat`). -/
structure DeviceState where
  dictionary : Address → Option Entry
  name_to_address : String → Option Address
  receive_pdo_mappings : List ReceivePDOMapping
  cob_ids : List Nat
  operations : String → Option Nat
  constants : String → Option Value

/-- The empty device state (a freshly constructed `Device`). -/
def DeviceState.empty : DeviceState :=
  { dictionary := fun _ => none
    name_to_address := fun _ => none
    receive_pdo_mappings := []
    cob_ids := []
    operations := fun _ => none
    constants := fun _ => none }

/-- One interaction between the `Device` and its `Core`: an SDO upload
request, an SDO download request (with payload bytes), or a raw CAN frame
send. -/
inductive CoreOp where
  | sdoUpload (node : Nat) (index : Nat) (subindex : Nat)
  | sdoDownload (node : Nat) (index : Nat) (subindex : Nat) (bytes : List Nat)
  | sendFrame (cob_id : Nat) (rtr : Bool) (bytes : List Nat)
deriving DecidableEq, Repr

/-- Device state plus core-interaction bookkeeping: a running count of SDO
calls made so far (to index the oracle) and the trace of all core
operations issued, in order (new operations appended at the end). -/
structure Sim where
  dev : DeviceState
  calls : Nat
  trace : List CoreOp

/-- The SDO client as an oracle: the outcome of the `n`-th SDO call made by
this device, given the target node and address (and payload for
downloads). -/
structure SdoOracle where
  upload : Nat → Nat → Address → Except SdoError (List Nat)
  download : Nat → Nat → Address → List Nat → Except SdoError Unit

/-- `m_core.sdo.upload(node, index, subindex)`: records the operation and
consults the oracle. -/
def sdoUploadCall (o : SdoOracle) (node : Nat) (addr : Address) (st : Sim) :
    Except SdoError (List Nat) × Sim :=
  (o.upload st.calls node addr,
   { st with
       calls := st.calls + 1
       trace := st.trace ++ [CoreOp.sdoUpload node addr.index addr.subindex] })

/-- `m_core.sdo.download(node, index, subindex, size, bytes)`: records the
operation and consults the oracle. -/
def sdoDownloadCall (o : SdoOracle) (node : Nat) (addr : Address)
    (bytes : List Nat) (st : Sim) : Except SdoError Unit × Sim :=
  (o.download st.calls node addr bytes,
   { st with
       calls := st.calls + 1
       trace := st.trace ++ [CoreOp.sdoDownload node addr.index addr.subindex bytes] })

/-- Modelled from the spec: `Config::repeats_on_sdo_timeout` is declared in
`core/global_config.h`, not in the provided sources; spec section 6 gives
its default value 1. -/
def Config.repeats_on_sdo_timeout : Nat := 1

/-- The retry loop of `Device::get_entry_via_sdo`, by remaining attempts.
Each iteration calls `m_core.sdo.upload`; success returns
`Value(type, data)`, failure remembers the error and retries.  When the
attempts are exhausted the loop falls through to
`throw sdo_error(sdo_error::type::response_timeout, ...)`; the last caught
error feeds only the human-readable message, which this model drops. -/
def get_entry_via_sdo_go (o : SdoOracle) (node : Nat) (addr : Address)
    (type : Ty) : Nat → Sim → Except SdoError Value × Sim
  | 0, st => (Except.error { kind := SdoErrorKind.response_timeout, abort_code := none }, st)
  | fuel + 1, st =>
    match sdoUploadCall o node addr st with
    | (Except.ok data, st') => (Except.ok { type := type, bytes := data }, st')
    | (Except.error _, st') => get_entry_via_sdo_go o node addr type fuel st'

/-- `Device::get_entry_via_sdo(index, subindex, type)`: the whole
transaction is attempted `repeats_on_sdo_timeout + 1` times. -/
def Device.get_entry_via_sdo (o : SdoOracle) (repeats node : Nat)
    (addr : Address) (type : Ty) (st : Sim) : Except SdoError Value × Sim :=
  get_entry_via_sdo_go o node addr type (repeats + 1) st

/-- The retry loop of `Device::set_entry_via_sdo`, by remaining attempts. -/
def set_entry_via_sdo_go (o : SdoOracle) (node : Nat) (addr : Address)
    (bytes : List Nat) : Nat → Sim → Except SdoError Unit × Sim
  | 0, st => (Except.error { kind := SdoErrorKind.response_timeout, abort_code := none }, st)
  | fuel + 1, st =>
    match sdoDownloadCall o node addr bytes st with
    | (Except.ok _, st') => (Except.ok (), st')
    | (Except.error _, st') => set_entry_via_sdo_go o node addr bytes fuel st'

/-- `Device::set_entry_via_sdo(index, subindex, value)`: downloads
`value.get_bytes()`, attempting the whole transaction
`repeats_on_sdo_timeout + 1` times. -/
def Device.set_entry_via_sdo (o : SdoOracle) (repeats node : Nat)
    (addr : Address) (value : Value) (st : Sim) : Except SdoError Unit × Sim :=
  set_entry_via_sdo_go o node addr value.bytes (repeats + 1) st

/-- Update the dictionary entry stored at `addr` (the effect of
`entry.set_value(v)` through the reference obtained from
`m_dictionary[...]`). -/
def DeviceState.setEntryValue (d : DeviceState) (addr : Address) (e : Entry)
    (v : Value) : DeviceState :=
  { d with
      dictionary := fun a =>
        if a = addr then some { e with value := v } else d.dictionary a }

/-- `Device::has_entry(index, subindex)`. -/
def DeviceState.has_entry (d : DeviceState) (index subindex : Nat) : Bool :=
  (d.dictionary { index := index, subindex := subindex }).isSome

/-- `Device::get_entry(index, subindex, access_method)` (device.cpp
112-136).  If the entry is missing, throw `unknown_entry`.  If the access
method is `sdo` (or `use_default` resolving to `sdo`), perform an SDO
upload, store the result into the entry, and return it; otherwise return
the cached value.  No other access method touches the core: the commented
NOTE in the source records that PDO caching/waiting is not implemented. -/
def Device.get_entry (o : SdoOracle) (repeats node index subindex : Nat)
    (access_method : ReadAccessMethod) (st : Sim) :
    Except DeviceError Value × Sim :=
  match st.dev.dictionary { index := index, subindex := subindex } with
  | none =>
    (Except.error (DeviceError.dictionary_error DictErrorType.unknown_entry
      (toString index ++ "sub" ++ toString subindex)), st)
  | some entry =>
    if access_method = ReadAccessMethod.sdo ∨
        (access_method = ReadAccessMethod.use_default ∧
          entry.read_access_method = ReadAccessMethod.sdo) then
      match Device.get_entry_via_sdo o repeats node
          { index := entry.index, subindex := entry.subindex } entry.type st with
      | (Except.ok v, st') =>
        (Except.ok v,
         { st' with
             dev := st'.dev.setEntryValue { index := index, subindex := subindex } entry v })
      | (Except.error e, st') => (Except.error (DeviceError.sdo_error e), st')
    else
      (Except.ok entry.value, st)

/-- `Device::set_entry(index, subindex, value, access_method)` (device.cpp
148-170).  Missing entry throws `unknown_entry`; a type mismatch throws
`wrong_type`; otherwise the cached value is updated first and, if the
access method resolves to `sdo`, an SDO download follows (whose failure
escapes after the cache update). -/
def Device.set_entry (o : SdoOracle) (repeats node index subindex : Nat)
    (value : Value) (access_method : WriteAccessMethod) (st : Sim) :
    Except DeviceError Unit × Sim :=
  match st.dev.dictionary { index := index, subindex := subindex } with
  | none =>
    (Except.error (DeviceError.dictionary_error DictErrorType.unknown_entry
      (toString index ++ "sub" ++ toString subindex)), st)
  | some entry =>
    if value.type ≠ entry.type then
      (Except.error (DeviceError.dictionary_error DictErrorType.wrong_type
        (toString index ++ "sub" ++ toString subindex)), st)
    else
      let st1 : Sim :=
        { st with dev := st.dev.setEntryValue { index := index, subindex := subindex } entry value }
      if access_method = WriteAccessMethod.sdo ∨
          (access_method = WriteAccessMethod.use_default ∧
            entry.write_access_method = WriteAccessMethod.sdo) then
        match Device.set_entry_via_sdo o repeats node
            { index := entry.index, subindex := entry.subindex } value st1 with
        | (Except.ok _, st2) => (Except.ok (), st2)
        | (Except.error e, st2) => (Except.error (DeviceError.sdo_error e), st2)
      else
        (Except.ok (), st1)

/-- `Device::add_entry(index, subindex, name, type, access_type)`
(device.cpp 172-189): reject a duplicate canonical name or a duplicate
address with `canopen_error`; otherwise insert a fresh entry into the
dictionary and its name into the name index. -/
def Device.add_entry (d : DeviceState) (index subindex : Nat) (name : String)
    (type : Ty) (access_type : AccessType) : Except DeviceError Unit × DeviceState :=
  let entry_name := Utils.escape name
  if (d.name_to_address entry_name).isSome then
    (Except.error (DeviceError.canopen_error
      ("[Device::add_entry] Entry with name \"" ++ entry_name ++ "\" already exists.")), d)
  else if d.has_entry index subindex then
    (Except.error (DeviceError.canopen_error
      ("[Device::add_entry] Entry with index " ++ toString index ++ "sub" ++
        toString subindex ++ " already exists.")), d)
  else
    let address : Address := { index := index, subindex := subindex }
    let entry : Entry :=
      { index := index
        subindex := subindex
        name := entry_name
        type := type
        access_type := access_type
        read_access_method := ReadAccessMethod.use_default
        write_access_method := WriteAccessMethod.use_default
        value := { type := Ty.invalid, bytes := [] }
        disabled := false }
    (Except.ok (),
     { d with
         dictionary := fun a => if a = address then some entry else d.dictionary a
         name_to_address := fun n =>
           if n = entry_name then some address else d.name_to_address n })

/-- `Device::add_operation(operation_name, operation)` (device.cpp
653-660): a duplicate canonical name only logs a warning; the binding is
overwritten unconditionally. -/
def Device.add_operation (d : DeviceState) (operation_name : String)
    (operation : Nat) : Except DeviceError Unit × DeviceState :=
  let name := Utils.escape operation_name
  (Except.ok (),
   { d with operations := fun n => if n = name then some operation else d.operations n })

/-- `Device::add_constant(constant_name, constant)` (device.cpp 681-688): a
duplicate canonical name only logs a warning; the binding is overwritten
unconditionally. -/
def Device.add_constant (d : DeviceState) (constant_name : String)
    (constant : Value) : Except DeviceError Unit × DeviceState :=
  let name := Utils.escape constant_name
  (Except.ok (),
   { d with constants := fun n => if n = name then some constant else d.constants n })

/-- `Device::add_receive_pdo_mapping(cob_id, entry_name, offset)` (device.cpp
191-229, the name-based overload): reject a missing entry with
`unknown_entry` and a mapping that would overrun the 8-byte payload with
`mapping_size`; otherwise push the mapping to the front of
`m_receive_pdo_mappings`, record the COB-ID in `cob_ids_` and register the
PDO callback with the core. -/
def Device.add_receive_pdo_mapping (d : DeviceState) (cob_id : Nat)
    (entry_name : String) (offset : Nat) : Except DeviceError Unit × DeviceState :=
  let name := Utils.escape entry_name
  match d.name_to_address name with
  | none => (Except.error (DeviceError.dictionary_error DictErrorType.unknown_entry name), d)
  | some addr =>
    match d.dictionary addr with
    | none => (Except.error (DeviceError.dictionary_error DictErrorType.unknown_entry name), d)
    | some entry =>
      let type_size := Utils.get_type_size entry.type
      if 8 < offset + type_size then
        (Except.error (DeviceError.dictionary_error DictErrorType.mapping_size name), d)
      else
        (Except.ok (),
         { d with
             receive_pdo_mappings :=
               { cob_id := cob_id, entry_name := name, offset := offset } ::
                 d.receive_pdo_mappings
             cob_ids := d.cob_ids ++ [cob_id] })

/-- `Device::add_receive_pdo_mapping(cob_id, entry_index, entry_subindex,
offset)` (device.cpp 270-297, the index-based overload): no existence
check; `m_dictionary[address]` default-inserts a fresh `Entry` when the
address is missing.  With that entry's type size the mapping-size check
runs (a failure leaves the default-inserted entry behind); on success the
mapping is pushed to the front and the callback registered. -/
def Device.add_receive_pdo_mapping_by_index (d : DeviceState) (cob_id : Nat)
    (entry_index entry_subindex : Nat) (offset : Nat) :
    Except DeviceError Unit × DeviceState :=
  let addr : Address := { index := entry_index, subindex := entry_subindex }
  let lookup : Entry × DeviceState :=
    match d.dictionary addr with
    | some e => (e, d)
    | none =>
      (defaultEntry,
       { d with dictionary := fun a => if a = addr then some defaultEntry else d.dictionary a })
  let entry := lookup.1
  let d1 := lookup.2
  let type_size := Utils.get_type_size entry.type
  if 8 < offset + type_size then
    (Except.error (DeviceError.dictionary_error DictErrorType.mapping_size entry.name), d1)
  else
    (Except.ok (),
     { d1 with
         receive_pdo_mappings :=
           { cob_id := cob_id, entry_name := entry.name, offset := offset } ::
             d1.receive_pdo_mappings
         cob_ids := d1.cob_ids ++ [cob_id] })

/-- `Device::pdo_received_callback(mapping, data)` (device.cpp 417-448).
Both `m_name_to_address[entry_name]` and `m_dictionary[...]` use
`operator[]`, so a missing key default-inserts (modelled explicitly).  An
entry of invalid type, or a payload shorter than `offset + type_size`, is
logged and dropped: the callback returns without touching the entry's
value.  Otherwise the byte slice `[offset, offset + type_size)` becomes the
entry's new value.  No path of the source throws. -/
def Device.pdo_received_callback (d : DeviceState)
    (mapping : ReceivePDOMapping) (data : List Nat) : DeviceState :=
  let entry_name := Utils.escape mapping.entry_name
  let nameLookup : Address × DeviceState :=
    match d.name_to_address entry_name with
    | some a => (a, d)
    | none =>
      let a0 : Address := { index := 0, subindex := 0 }
      (a0,
       { d with name_to_address := fun n =>
           if n = entry_name then some a0 else d.name_to_address n })
  let addr := nameLookup.1
  let d1 := nameLookup.2
  let dictLookup : Entry × DeviceState :=
    match d1.dictionary addr with
    | some e => (e, d1)
    | none =>
      (defaultEntry,
       { d1 with dictionary := fun a => if a = addr then some defaultEntry else d1.dictionary a })
  let entry := dictLookup.1
  let d2 := dictLookup.2
  let offset := mapping.offset
  let type_size := Utils.get_type_size entry.type
  if entry.type = Ty.invalid then
    d2
  else if data.length < offset + type_size then
    d2
  else
    let bytes := (data.drop offset).take type_size
    d2.setEntryValue addr entry { type := entry.type, bytes := bytes }

/-- `enum class TPDO_NO` (used by `Device::get_tpdo_indexes`). -/
inductive TPDO_NO where
  | TPDO_1
  | TPDO_2
  | TPDO_3
  | TPDO_4
deriving DecidableEq, Repr

/-- `Device::get_tpdo_indexes(tpdo_no)` (device.cpp 773-801): the
communication and mapping parameter indexes of each TPDO. -/
def Device.get_tpdo_indexes : TPDO_NO → Nat × Nat
  | TPDO_NO.TPDO_1 => (0x1800, 0x1A00)
  | TPDO_NO.TPDO_2 => (0x1801, 0x1A01)
  | TPDO_NO.TPDO_3 => (0x1802, 0x1A02)
  | TPDO_NO.TPDO_4 => (0x1803, 0x1A03)

/-- Sequencing of `Device` calls under C++ exception propagation: on error,
the error escapes with the state as already mutated. -/
def andThen (r : Except DeviceError Unit × Sim)
    (f : Sim → Except DeviceError Unit × Sim) : Except DeviceError Unit × Sim :=
  match r with
  | (Except.ok _, st) => f st
  | (Except.error e, st) => (Except.error e, st)

/-- The loop body of `Device::write_entry` (device.cpp 833-840): for each
mapping word, increment the `uint8_t` offset (wrapping at 256) and
`set_entry(index, offset, uint32(word), sdo)`. -/
def Device.write_entry_go (o : SdoOracle) (repeats node index : Nat) :
    List Nat → Nat → Sim → Except DeviceError Unit × Sim
  | [], _, st => (Except.ok (), st)
  | e :: rest, offset, st =>
    andThen (Device.set_entry o repeats node index ((offset + 1) % 256)
      (Value.ofUInt32 e) WriteAccessMethod.sdo st)
      (fun st' => Device.write_entry_go o repeats node index rest ((offset + 1) % 256) st')

/-- `Device::write_entry(index, entries)` (device.cpp 833-840): write the
mapping words to subindexes 1, 2, ... of `index` via SDO.  The source
iterates with `uint8_t` counters, faithfully modelled by the wrapping
offset; lists of 256 or more words (on which the source's loop would not
terminate) are beyond the model. -/
def Device.write_entry (o : SdoOracle) (repeats node index : Nat)
    (entries : List Nat) (st : Sim) : Except DeviceError Unit × Sim :=
  Device.write_entry_go o repeats node index entries 0 st

/-- The disable step of the remap sequence:
`cob_id ^= (uint32_t)((-1 ^ cob_id) & (1UL << 31))` — sets bit 31. -/
def setBit31Xor (c : Nat) : Nat :=
  c ^^^ (((2 ^ 32 - 1) ^^^ c) &&& 2 ^ 31)

/-- The enable step of the remap sequence:
`cob_id ^= (uint32_t)((0 ^ cob_id) & (1UL << 31))` — clears bit 31. -/
def clearBit31Xor (c : Nat) : Nat :=
  c ^^^ ((0 ^^^ c) &&& 2 ^ 31)

/-- `Device::map_tpdo_in_device(tpdo_no, entries_to_be_mapped,
transmit_type)` (device.cpp 934-971, the three-argument overload): read the
COB-ID at communication subindex 1 and write it back with bit 31 set;
write 0 to mapping subindex 0; write the mapping words to mapping
subindexes 1..k; write k to mapping subindex 0; write the transmit type to
communication subindex 2; write the COB-ID with bit 31 cleared back to
communication subindex 1.  Every step uses SDO; a step's failure aborts
the sequence. -/
def Device.map_tpdo_in_device (o : SdoOracle) (repeats node : Nat)
    (tpdo_no : TPDO_NO) (entries_to_be_mapped : List Nat)
    (transmit_type : Nat) (st : Sim) : Except DeviceError Unit × Sim :=
  let idxs := Device.get_tpdo_indexes tpdo_no
  let comm_param_idx := idxs.1
  let mapp_param_idx := idxs.2
  match Device.get_entry o repeats node comm_param_idx 1 ReadAccessMethod.sdo st with
  | (Except.error e, st1) => (Except.error e, st1)
  | (Except.ok v, st1) =>
    let cob_id := setBit31Xor (Value.toUInt32 v)
    andThen (Device.set_entry o repeats node comm_param_idx 1
        (Value.ofUInt32 cob_id) WriteAccessMethod.sdo st1) (fun st2 =>
    andThen (Device.set_entry o repeats node mapp_param_idx 0
        (Value.ofUInt8 0) WriteAccessMethod.sdo st2) (fun st3 =>
    andThen (Device.write_entry o repeats node mapp_param_idx
        entries_to_be_mapped st3) (fun st4 =>
    andThen (Device.set_entry o repeats node mapp_param_idx 0
        (Value.ofUInt8 entries_to_be_mapped.length) WriteAccessMethod.sdo st4) (fun st5 =>
    andThen (Device.set_entry o repeats node comm_param_idx 2
        (Value.ofUInt8 transmit_type) WriteAccessMethod.sdo st5) (fun st6 =>
    Device.set_entry o repeats node comm_param_idx 1
        (Value.ofUInt32 (clearBit31Xor cob_id)) WriteAccessMethod.sdo st6)))))

/-- The ordinal of a TPDO number (`TPDO_n ↦ n`), used to state the spec's
index formula `0x1800 + n - 1` / `0x1A00 + n - 1`. -/
def tpdoNum : TPDO_NO → Nat
  | TPDO_NO.TPDO_1 => 1
  | TPDO_NO.TPDO_2 => 2
  | TPDO_NO.TPDO_3 => 3
  | TPDO_NO.TPDO_4 => 4

/-- The value-independent part of an entry: address fields and type.  SDO
reads and writes change only an entry's cached value, so the dictionary
keeps its shape across them. -/
def Entry.shape (e : Entry) : Nat × Nat × Ty :=
  (e.index, e.subindex, e.type)

/-- Two dictionaries agree everywhere up to cached values. -/
def SameShape (d d' : Address → Option Entry) : Prop :=
  ∀ a, (d a).map Entry.shape = (d' a).map Entry.shape

/-- An SDO oracle on which every upload returns the four little-endian
bytes of `c` and every download succeeds. -/
def AlwaysOk (o : SdoOracle) (c : Nat) : Prop :=
  (∀ i n a, o.upload i n a = Except.ok (encodeLE 4 c)) ∧
  (∀ i n a b, o.download i n a b = Except.ok ())

/-- The dictionary / name-index invariant of spec section 8: every entry's
canonical name maps back to the entry's address, and every name in the
index maps to an address present in the dictionary. -/
def DictInvariant (d : DeviceState) : Prop :=
  (∀ a e, d.dictionary a = some e →
      d.name_to_address e.name = some a ∧
      a = { index := e.index, subindex := e.subindex }) ∧
  (∀ n a, d.name_to_address n = some a → (d.dictionary a).isSome)

/-- Arguments of one `Device::add_entry` call. -/
structure AddReq where
  index : Nat
  subindex : Nat
  name : String
  type : Ty
  access_type : AccessType

/-- Run a sequence of `add_entry` calls, keeping the resulting state each
time (a failing call throws before mutating anything, so it leaves the
state unchanged and the fold is exactly the effect of the successful
calls). -/
def applyAddEntries (d : DeviceState) : List AddReq → DeviceState
  | [] => d
  | r :: rs =>
    applyAddEntries (Device.add_entry d r.index r.subindex r.name r.type r.access_type).2 rs

/-- An entry fixture: given address, name and type, remaining fields as a
freshly added entry. -/
def mkEntry (index subindex : Nat) (name : String) (type : Ty) : Entry :=
  { index := index
    subindex := subindex
    name := name
    type := type
    access_type := AccessType.read_write
    read_access_method := ReadAccessMethod.use_default
    write_access_method := WriteAccessMethod.use_default
    value := { type := Ty.invalid, bytes := [] }
    disabled := false }

/-- An oracle whose every transfer fails with the SDO abort 0x06020000
("object does not exist"). -/
def abortOracle : SdoOracle :=
  { upload := fun _ _ _ =>
      Except.error { kind := SdoErrorKind.abort, abort_code := some 0x06020000 }
    download := fun _ _ _ _ =>
      Except.error { kind := SdoErrorKind.abort, abort_code := some 0x06020000 } }

/-- An oracle whose every transfer times out. -/
def timeoutOracle : SdoOracle :=
  { upload := fun _ _ _ =>
      Except.error { kind := SdoErrorKind.response_timeout, abort_code := none }
    download := fun _ _ _ _ =>
      Except.error { kind := SdoErrorKind.response_timeout, abort_code := none } }

/-- An oracle on which every upload yields the bytes of `c` and every
download succeeds. -/
def okOracle (c : Nat) : SdoOracle :=
  { upload := fun _ _ _ => Except.ok (encodeLE 4 c)
    download := fun _ _ _ _ => Except.ok () }

/-- A device knowing the single entry `device_type` at 0x1000sub0. -/
def sampleDev : DeviceState :=
  { DeviceState.empty with
      dictionary := fun a =>
        if a = { index := 0x1000, subindex := 0 } then
          some (mkEntry 0x1000 0 "device_type" Ty.uint32)
        else none
      name_to_address := fun n =>
        if n = "device_type" then some { index := 0x1000, subindex := 0 } else none }

/-- `sampleDev` with fresh bookkeeping. -/
def sim0 : Sim := { dev := sampleDev, calls := 0, trace := [] }

/-- A cached value fixture for the `pdo_request_and_wait` scenario. -/
def cachedVal : Value := { type := Ty.uint32, bytes := encodeLE 4 1234 }

/-- An entry whose default read method is `pdo_request_and_wait` and whose
cached value is `cachedVal`. -/
def velEntry : Entry :=
  { mkEntry 0x606C 0 "velocity_actual_value" Ty.uint32 with
      value := cachedVal
      read_access_method := ReadAccessMethod.pdo_request_and_wait }

/-- A device holding `velEntry`, with fresh bookkeeping. -/
def simC3 : Sim :=
  { dev :=
      { DeviceState.empty with
          dictionary := fun a =>
            if a = { index := 0x606C, subindex := 0 } then some velEntry else none
          name_to_address := fun n =>
            if n = "velocity_actual_value" then
              some { index := 0x606C, subindex := 0 }
            else none }
    calls := 0
    trace := [] }

/-- A device with an operation and a constant already bound. -/
def devC5 : DeviceState :=
  { DeviceState.empty with
      operations := fun n => if n = "op" then some 0 else none
      constants := fun n =>
        if n = "answer" then some (Value.ofUInt8 42) else none
      name_to_address := fun n =>
        if n = "device_type" then some { index := 0x1000, subindex := 0 } else none
      dictionary := fun a =>
        if a = { index := 0x1000, subindex := 0 } then
          some (mkEntry 0x1000 0 "device_type" Ty.uint32)
        else none }

/-- A device holding the TPDO1 communication and mapping parameter entries,
as a remote node's dictionary mirror for the remap sequence. -/
def tpdoDev : DeviceState :=
  { DeviceState.empty with
      dictionary := fun a =>
        if a = { index := 0x1800, subindex := 1 } then
          some (mkEntry 0x1800 1 "tpdo1_cob_id" Ty.uint32)
        else if a = { index := 0x1800, subindex := 2 } then
          some (mkEntry 0x1800 2 "tpdo1_transmission_type" Ty.uint8)
        else if a = { index := 0x1A00, subindex := 0 } then
          some (mkEntry 0x1A00 0 "tpdo1_mapping_count" Ty.uint8)
        else if a = { index := 0x1A00, subindex := 1 } then
          some (mkEntry 0x1A00 1 "tpdo1_mapping_1" Ty.uint32)
        else if a = { index := 0x1A00, subindex := 2 } then
          some (mkEntry 0x1A00 2 "tpdo1_mapping_2" Ty.uint32)
        else if a = { index := 0x1A00, subindex := 3 } then
          some (mkEntry 0x1A00 3 "tpdo1_mapping_3" Ty.uint32)
        else none }

/-- `tpdoDev` with fresh bookkeeping. -/
def simC1 : Sim := { dev := tpdoDev, calls := 0, trace := [] }

/-- If every upload attempt fails (with any SDO error), the retry loop of
`get_entry_via_sdo` exhausts its fuel, surfaces `response_timeout`, makes
exactly `fuel` upload calls and leaves the device state untouched. -/
lemma upload_all_fail_go (o : SdoOracle) (node : Nat) (addr : Address) (type : Ty)
    (hup : ∀ i, ∃ e, o.upload i node addr = Except.error e) :
    ∀ (fuel : Nat) (st : Sim),
      (get_entry_via_sdo_go o node addr type fuel st).1 =
        Except.error { kind := SdoErrorKind.response_timeout, abort_code := none } ∧
      (get_entry_via_sdo_go o node addr type fuel st).2.calls = st.calls + fuel ∧
      (get_entry_via_sdo_go o node addr type fuel st).2.dev = st.dev := by
  intro fuel
  induction fuel with
  | zero => intro st; exact ⟨rfl, rfl, rfl⟩
  | succ n ih =>
    intro st
    obtain ⟨e, he⟩ := hup st.calls
    have h := ih { st with
      calls := st.calls + 1
      trace := st.trace ++ [CoreOp.sdoUpload node addr.index addr.subindex] }
    simp only [get_entry_via_sdo_go, sdoUploadCall, he]
    refine ⟨h.1, ?_, h.2.2⟩
    rw [h.2.1]
    show st.calls + 1 + n = st.calls + (n + 1)
    omega

/-- If every download attempt fails (with any SDO error), the retry loop of
`set_entry_via_sdo` exhausts its fuel, surfaces `response_timeout`, makes
exactly `fuel` download calls and leaves the device state untouched. -/
lemma download_all_fail_go (o : SdoOracle) (node : Nat) (addr : Address) (bytes : List Nat)
    (hdn : ∀ i, ∃ e, o.download i node addr bytes = Except.error e) :
    ∀ (fuel : Nat) (st : Sim),
      (set_entry_via_sdo_go o node addr bytes fuel st).1 =
        Except.error { kind := SdoErrorKind.response_timeout, abort_code := none } ∧
      (set_entry_via_sdo_go o node addr bytes fuel st).2.calls = st.calls + fuel ∧
      (set_entry_via_sdo_go o node addr bytes fuel st).2.dev = st.dev := by
  intro fuel
  induction fuel with
  | zero => intro st; exact ⟨rfl, rfl, rfl⟩
  | succ n ih =>
    intro st
    obtain ⟨e, he⟩ := hdn st.calls
    have h := ih { st with
      calls := st.calls + 1
      trace := st.trace ++ [CoreOp.sdoDownload node addr.index addr.subindex bytes] }
    simp only [set_entry_via_sdo_go, sdoDownloadCall, he]
    refine ⟨h.1, ?_, h.2.2⟩
    rw [h.2.1]
    show st.calls + 1 + n = st.calls + (n + 1)
    omega

/-- C4: for every SDO read or write whose attempts all time out, the whole
transaction is attempted exactly `repeats_on_sdo_timeout + 1` times (the
call counter advances by `repeats + 1`), the surfaced failure is an
`sdo_error` of kind `response_timeout`, and the configured default of
`repeats_on_sdo_timeout` is 1 (so 2 attempts by default). -/
theorem C4_sdo_timeout_retry_exhaustion (o : SdoOracle) (repeats node : Nat)
    (addr : Address) (type : Ty) (value : Value) (st st' : Sim)
    (hup : ∀ i, o.upload i node addr =
      Except.error { kind := SdoErrorKind.response_timeout, abort_code := none })
    (hdn : ∀ i, o.download i node addr value.bytes =
      Except.error { kind := SdoErrorKind.response_timeout, abort_code := none }) :
    (Device.get_entry_via_sdo o repeats node addr type st).1 =
      Except.error { kind := SdoErrorKind.response_timeout, abort_code := none } ∧
    (Device.get_entry_via_sdo o repeats node addr type st).2.calls =
      st.calls + (repeats + 1) ∧
    (Device.set_entry_via_sdo o repeats node addr value st').1 =
      Except.error { kind := SdoErrorKind.response_timeout, abort_code := none } ∧
    (Device.set_entry_via_sdo o repeats node addr value st').2.calls =
      st'.calls + (repeats + 1) ∧
    Config.repeats_on_sdo_timeout = 1 := by
  have hu := upload_all_fail_go o node addr type (fun i => ⟨_, hup i⟩) (repeats + 1) st
  have hd := download_all_fail_go o node addr value.bytes (fun i => ⟨_, hdn i⟩) (repeats + 1) st'
  exact ⟨hu.1, hu.2.1, hd.1, hd.2.1, rfl⟩

/-- Witness for C4 at a concrete input: node 1 reading `device_type` and
writing a `uint8` against an oracle that always times out, with the default
retry count. -/
theorem C4_sdo_timeout_retry_exhaustion_witness :
    (Device.get_entry_via_sdo timeoutOracle Config.repeats_on_sdo_timeout 1
        { index := 0x1000, subindex := 0 } Ty.uint32 sim0).1 =
      Except.error { kind := SdoErrorKind.response_timeout, abort_code := none } ∧
    (Device.get_entry_via_sdo timeoutOracle Config.repeats_on_sdo_timeout 1
        { index := 0x1000, subindex := 0 } Ty.uint32 sim0).2.calls = 0 + (1 + 1) ∧
    (Device.set_entry_via_sdo timeoutOracle Config.repeats_on_sdo_timeout 1
        { index := 0x1000, subindex := 0 } (Value.ofUInt8 5) sim0).1 =
      Except.error { kind := SdoErrorKind.response_timeout, abort_code := none } ∧
    (Device.set_entry_via_sdo timeoutOracle Config.repeats_on_sdo_timeout 1
        { index := 0x1000, subindex := 0 } (Value.ofUInt8 5) sim0).2.calls = 0 + (1 + 1) ∧
    Config.repeats_on_sdo_timeout = 1 :=
  C4_sdo_timeout_retry_exhaustion timeoutOracle Config.repeats_on_sdo_timeout 1
    { index := 0x1000, subindex := 0 } Ty.uint32 (Value.ofUInt8 5) sim0 sim0
    (fun _ => rfl) (fun _ => rfl)

/-- C2 counterexample: on a device knowing `device_type`, against an SDO
server that aborts every transfer with code 0x06020000, `get_entry` with
the `sdo` access method does NOT surface `SdoError{abort_code=0x06020000}`
after 0 retries — it makes 2 upload attempts (1 retry, the default policy,
which the source applies to every `sdo_error`, aborts included) and
surfaces an `sdo_error` of kind `response_timeout`. -/
theorem C2_counterexample :
    (Device.get_entry abortOracle Config.repeats_on_sdo_timeout 1 0x1000 0
        ReadAccessMethod.sdo sim0).1 =
      Except.error (DeviceError.sdo_error
        { kind := SdoErrorKind.response_timeout, abort_code := none }) ∧
    (Device.get_entry abortOracle Config.repeats_on_sdo_timeout 1 0x1000 0
        ReadAccessMethod.sdo sim0).2.calls = 2 := by
  exact ⟨rfl, rfl⟩

/-- C2 as amended: when every upload attempt fails with an SDO abort,
`get_entry` with the `sdo` access method retries it like a timeout — the
transfer is attempted `repeats_on_sdo_timeout + 1` times in total — and
after exhaustion the surfaced error is an `sdo_error` of kind
`response_timeout` (the abort survives only in the message text), not the
typed abort. -/
theorem C2_abort_is_retried_and_masked (o : SdoOracle) (repeats node : Nat)
    (index subindex : Nat) (e : Entry) (st : Sim) (code : Nat)
    (hd : st.dev.dictionary { index := index, subindex := subindex } = some e)
    (hei : e.index = index) (hes : e.subindex = subindex)
    (hab : ∀ i, o.upload i node { index := index, subindex := subindex } =
      Except.error { kind := SdoErrorKind.abort, abort_code := some code }) :
    (Device.get_entry o repeats node index subindex ReadAccessMethod.sdo st).1 =
      Except.error (DeviceError.sdo_error
        { kind := SdoErrorKind.response_timeout, abort_code := none }) ∧
    (Device.get_entry o repeats node index subindex ReadAccessMethod.sdo st).2.calls =
      st.calls + (repeats + 1) := by
  have hfail := upload_all_fail_go o node { index := index, subindex := subindex }
    e.type (fun i => ⟨_, hab i⟩) (repeats + 1) st
  rcases hr : get_entry_via_sdo_go o node { index := index, subindex := subindex }
      e.type (repeats + 1) st with ⟨r1, st'⟩
  rw [hr] at hfail
  simp only [Device.get_entry, hd]
  rw [if_pos (Or.inl trivial)]
  simp only [Device.get_entry_via_sdo, hei, hes, hr]
  have h1 : r1 = Except.error { kind := SdoErrorKind.response_timeout, abort_code := none } :=
    hfail.1
  have h2 : st'.calls = st.calls + (repeats + 1) := hfail.2.1
  subst h1
  exact ⟨rfl, h2⟩

/-- Witness for the amended C2: node 1 reading `device_type` against the
always-aborting oracle, default retry count: 2 attempts, surfaced kind
`response_timeout`. -/
theorem C2_abort_is_retried_and_masked_witness :
    (Device.get_entry abortOracle Config.repeats_on_sdo_timeout 1 0x1000 0
        ReadAccessMethod.sdo sim0).1 =
      Except.error (DeviceError.sdo_error
        { kind := SdoErrorKind.response_timeout, abort_code := none }) ∧
    (Device.get_entry abortOracle Config.repeats_on_sdo_timeout 1 0x1000 0
        ReadAccessMethod.sdo sim0).2.calls = 0 + (1 + 1) :=
  C2_abort_is_retried_and_masked abortOracle Config.repeats_on_sdo_timeout 1 0x1000 0
    (mkEntry 0x1000 0 "device_type" Ty.uint32) sim0 0x06020000
    rfl rfl rfl (fun _ => rfl)

/-- C3 counterexample: reading `velocity_actual_value` with access method
`pdo_request_and_wait` returns the previously cached value and leaves the
whole simulation state — including the trace of operations issued to the
core — unchanged: no remote-request frame is sent, nothing is awaited, and
the returned value is the stale cache, not an updated one.  (The source's
`get_entry` only ever contacts the core on the `sdo` path; the NOTE in
device.cpp records that PDO request/wait is not implemented.) -/
theorem C3_counterexample :
    Device.get_entry (okOracle 0) Config.repeats_on_sdo_timeout 1 0x606C 0
        ReadAccessMethod.pdo_request_and_wait simC3 =
      (Except.ok cachedVal, simC3) ∧ simC3.trace = [] := by
  exact ⟨rfl, rfl⟩

/-- C3 as amended: for every entry, `get_entry` with access method
`pdo_request_and_wait` returns the entry's cached value immediately and
unchanged, issuing no core operation at all (no RTR frame, no SDO
transfer) and not waiting: the request-and-wait behaviour is not
implemented. -/
theorem C3_request_and_wait_returns_cache (o : SdoOracle) (repeats node : Nat)
    (index subindex : Nat) (e : Entry) (st : Sim)
    (hd : st.dev.dictionary { index := index, subindex := subindex } = some e) :
    Device.get_entry o repeats node index subindex
      ReadAccessMethod.pdo_request_and_wait st = (Except.ok e.value, st) := by
  simp [Device.get_entry, hd]

/-- Witness for the amended C3 at the concrete state `simC3`. -/
theorem C3_request_and_wait_returns_cache_witness :
    Device.get_entry (okOracle 0) Config.repeats_on_sdo_timeout 1 0x606C 0
        ReadAccessMethod.pdo_request_and_wait simC3 =
      (Except.ok velEntry.value, simC3) :=
  C3_request_and_wait_returns_cache (okOracle 0) Config.repeats_on_sdo_timeout 1
    0x606C 0 velEntry simC3 rfl

/-- C5 counterexample: on a device whose operation table already binds
"op" to operation 0 and whose constant table already binds "answer",
`add_operation "op"` and `add_constant "answer"` do NOT raise an error —
both return successfully and overwrite the existing binding (the source
only logs a warning on a duplicate name). -/
theorem C5_counterexample :
    devC5.operations "op" = some 0 ∧
    (Device.add_operation devC5 "op" 7).1 = Except.ok () ∧
    (Device.add_operation devC5 "op" 7).2.operations "op" = some 7 ∧
    devC5.constants "answer" = some (Value.ofUInt8 42) ∧
    (Device.add_constant devC5 "answer" (Value.ofUInt8 43)).1 = Except.ok () ∧
    (Device.add_constant devC5 "answer" (Value.ofUInt8 43)).2.constants "answer" =
      some (Value.ofUInt8 43) := by
  exact ⟨rfl, rfl, by decide, rfl, rfl, by decide⟩

/-- C5 as amended: `add_entry` does fail on a duplicate canonicalised name
— it raises `canopen_error` and leaves the device unchanged — but
`add_operation` and `add_constant` do not: on a duplicate name they return
successfully and replace the existing binding (warning only). -/
theorem C5_only_add_entry_rejects_duplicates (d : DeviceState)
    (index subindex : Nat) (name opName cName : String) (type : Ty)
    (access_type : AccessType) (op' : Nat) (cv' : Value)
    (hn : (d.name_to_address (Utils.escape name)).isSome = true)
    (_hop : (d.operations (Utils.escape opName)).isSome = true)
    (_hc : (d.constants (Utils.escape cName)).isSome = true) :
    (∃ msg, Device.add_entry d index subindex name type access_type =
      (Except.error (DeviceError.canopen_error msg), d)) ∧
    (Device.add_operation d opName op').1 = Except.ok () ∧
    (Device.add_operation d opName op').2.operations (Utils.escape opName) = some op' ∧
    (Device.add_constant d cName cv').1 = Except.ok () ∧
    (Device.add_constant d cName cv').2.constants (Utils.escape cName) = some cv' := by
  have hmsg : Device.add_entry d index subindex name type access_type =
      (Except.error (DeviceError.canopen_error
        ("[Device::add_entry] Entry with name \"" ++ Utils.escape name ++
          "\" already exists.")), d) := by
    simp [Device.add_entry, hn]
  exact ⟨⟨_, hmsg⟩, rfl, by simp [Device.add_operation], rfl,
    by simp [Device.add_constant]⟩

/-- Witness for the amended C5 on `devC5`: duplicate entry name
"device_type", duplicate operation "op", duplicate constant "answer". -/
theorem C5_only_add_entry_rejects_duplicates_witness :
    (∃ msg, Device.add_entry devC5 0x2000 0 "device_type" Ty.uint32
        AccessType.read_only = (Except.error (DeviceError.canopen_error msg), devC5)) ∧
    (Device.add_operation devC5 "op" 7).1 = Except.ok () ∧
    (Device.add_operation devC5 "op" 7).2.operations (Utils.escape "op") = some 7 ∧
    (Device.add_constant devC5 "answer" (Value.ofUInt8 43)).1 = Except.ok () ∧
    (Device.add_constant devC5 "answer" (Value.ofUInt8 43)).2.constants
      (Utils.escape "answer") = some (Value.ofUInt8 43) :=
  C5_only_add_entry_rejects_duplicates devC5 0x2000 0 "device_type" "op" "answer"
    Ty.uint32 AccessType.read_only 7 (Value.ofUInt8 43)
    (by decide) (by decide) (by decide)

/-- One `add_entry` call preserves the dictionary / name-index invariant:
a failing call leaves the state unchanged, and a successful one inserts a
matching pair into the dictionary and the name index. -/
lemma add_entry_preserves_invariant (d : DeviceState) (index subindex : Nat)
    (name : String) (type : Ty) (access_type : AccessType)
    (h : DictInvariant d) :
    DictInvariant (Device.add_entry d index subindex name type access_type).2 := by
  cases h1 : (d.name_to_address (Utils.escape name)).isSome with
  | true => simpa [Device.add_entry, h1] using h
  | false =>
    cases h2 : d.has_entry index subindex with
    | true => simpa [Device.add_entry, h1, h2] using h
    | false =>
      simp only [Device.add_entry, h1, h2, Bool.false_eq_true, if_false]
      constructor
      · intro a e he
        simp only at he
        by_cases ha : a = { index := index, subindex := subindex }
        · subst ha
          rw [if_pos rfl] at he
          cases he
          constructor
          · simp
          · rfl
        · rw [if_neg ha] at he
          obtain ⟨hne, haddr⟩ := h.1 a e he
          refine ⟨?_, haddr⟩
          simp only
          by_cases heq : e.name = Utils.escape name
          · rw [heq] at hne
            rw [hne] at h1
            simp at h1
          · rw [if_neg heq]
            exact hne
      · intro n a hna
        simp only at hna
        by_cases hn : n = Utils.escape name
        · rw [if_pos hn] at hna
          cases hna
          simp
        · rw [if_neg hn] at hna
          have := h.2 n a hna
          simp only
          by_cases ha : a = { index := index, subindex := subindex }
          · simp [ha]
          · rw [if_neg ha]
            exact this

/-- C6: starting from any device satisfying the dictionary / name-index
invariant, any sequence of `add_entry` calls preserves it (failing calls
leave the state unchanged, so this is exactly the effect of the
successful calls): every entry's canonical name maps back to the entry's
address and every indexed name resolves to a present entry. -/
theorem C6_add_entry_keeps_dictionary_invariant (d : DeviceState)
    (reqs : List AddReq) (h : DictInvariant d) :
    DictInvariant (applyAddEntries d reqs) := by
  induction reqs generalizing d with
  | nil => exact h
  | cons r rs ih =>
    exact ih _ (add_entry_preserves_invariant d r.index r.subindex r.name r.type
      r.access_type h)

/-- Witness for C6: two concrete `add_entry` calls on a fresh device. -/
theorem C6_add_entry_keeps_dictionary_invariant_witness :
    DictInvariant (applyAddEntries DeviceState.empty
      [{ index := 0x1000, subindex := 0, name := "Device Type", type := Ty.uint32,
         access_type := AccessType.read_only },
       { index := 0x6040, subindex := 0, name := "controlword", type := Ty.uint16,
         access_type := AccessType.read_write }]) :=
  C6_add_entry_keeps_dictionary_invariant DeviceState.empty _
    ⟨fun a e he => by simp [DeviceState.empty] at he,
     fun n a hn => by simp [DeviceState.empty] at hn⟩

/-- C7: a receive PDO mapping whose `offset + width(entry.type)` exceeds 8
is rejected by both overloads of `add_receive_pdo_mapping` with a
`mapping_size` dictionary error, and neither a mapping nor a callback
registration is installed (the name-based overload leaves the whole state
unchanged; the index-based one leaves the mapping list and the callback
registrations unchanged — its `operator[]` lookup may still have
default-inserted a dictionary entry). -/
theorem C7_oversized_mapping_rejected (d : DeviceState) (cob_id : Nat)
    (name : String) (offset : Nat) (addr : Address) (e : Entry)
    (hn : d.name_to_address (Utils.escape name) = some addr)
    (hd : d.dictionary addr = some e)
    (hsz : 8 < offset + Utils.get_type_size e.type)
    (cob_id2 index2 sub2 offset2 : Nat) (e2 : Entry)
    (hd2 : (d.dictionary { index := index2, subindex := sub2 }).getD defaultEntry = e2)
    (hsz2 : 8 < offset2 + Utils.get_type_size e2.type) :
    Device.add_receive_pdo_mapping d cob_id name offset =
      (Except.error (DeviceError.dictionary_error DictErrorType.mapping_size
        (Utils.escape name)), d) ∧
    (Device.add_receive_pdo_mapping_by_index d cob_id2 index2 sub2 offset2).1 =
      Except.error (DeviceError.dictionary_error DictErrorType.mapping_size e2.name) ∧
    (Device.add_receive_pdo_mapping_by_index d cob_id2 index2 sub2
        offset2).2.receive_pdo_mappings = d.receive_pdo_mappings ∧
    (Device.add_receive_pdo_mapping_by_index d cob_id2 index2 sub2
        offset2).2.cob_ids = d.cob_ids := by
  refine ⟨?_, ?_⟩
  · simp only [Device.add_receive_pdo_mapping, hn, hd]
    rw [if_pos hsz]
  · cases hcase : d.dictionary { index := index2, subindex := sub2 } with
    | some e' =>
      rw [hcase] at hd2
      simp only [Option.getD_some] at hd2
      subst hd2
      simp only [Device.add_receive_pdo_mapping_by_index, hcase]
      rw [if_pos hsz2]
      exact ⟨rfl, rfl, rfl⟩
    | none =>
      rw [hcase] at hd2
      simp only [Option.getD_none] at hd2
      subst hd2
      simp only [Device.add_receive_pdo_mapping_by_index, hcase]
      rw [if_pos hsz2]
      exact ⟨rfl, rfl, rfl⟩

/-- Witness for C7: on `sampleDev`, mapping the `uint32` entry
`device_type` at offset 7 (7 + 4 > 8) and, for the index-based overload,
the absent address 0x2000sub0 at offset 9 (default-inserted entry has
`invalid` type, width 0, and 9 > 8). -/
theorem C7_oversized_mapping_rejected_witness :
    Device.add_receive_pdo_mapping sampleDev 0x201 "device_type" 7 =
      (Except.error (DeviceError.dictionary_error DictErrorType.mapping_size
        (Utils.escape "device_type")), sampleDev) ∧
    (Device.add_receive_pdo_mapping_by_index sampleDev 0x201 0x2000 0 9).1 =
      Except.error (DeviceError.dictionary_error DictErrorType.mapping_size
        defaultEntry.name) ∧
    (Device.add_receive_pdo_mapping_by_index sampleDev 0x201 0x2000 0
        9).2.receive_pdo_mappings = sampleDev.receive_pdo_mappings ∧
    (Device.add_receive_pdo_mapping_by_index sampleDev 0x201 0x2000 0
        9).2.cob_ids = sampleDev.cob_ids :=
  C7_oversized_mapping_rejected sampleDev 0x201 "device_type" 7
    { index := 0x1000, subindex := 0 } (mkEntry 0x1000 0 "device_type" Ty.uint32)
    (by decide) rfl (by decide) 0x201 0x2000 0 9 defaultEntry rfl (by decide)

/-- C8: a received PDO frame whose payload is shorter than
`offset + width(entry.type)` is dropped by `pdo_received_callback`: the
callback returns normally (no path of the source throws) and the device
state — in particular the mapped entry's cached value — is unchanged. -/
theorem C8_short_pdo_payload_dropped (d : DeviceState)
    (m : ReceivePDOMapping) (data : List Nat) (addr : Address) (e : Entry)
    (hn : d.name_to_address (Utils.escape m.entry_name) = some addr)
    (hd : d.dictionary addr = some e)
    (hshort : data.length < m.offset + Utils.get_type_size e.type) :
    Device.pdo_received_callback d m data = d := by
  simp only [Device.pdo_received_callback, hn, hd]
  by_cases hinv : e.type = Ty.invalid
  · rw [if_pos hinv]
  · rw [if_neg hinv, if_pos hshort]

/-- Witness for C8: a 3-byte payload against a mapping of the 4-byte
`device_type` entry at offset 6 (3 < 6 + 4). -/
theorem C8_short_pdo_payload_dropped_witness :
    Device.pdo_received_callback sampleDev
      { cob_id := 0x201, entry_name := "device_type", offset := 6 }
      [1, 2, 3] = sampleDev :=
  C8_short_pdo_payload_dropped sampleDev
    { cob_id := 0x201, entry_name := "device_type", offset := 6 } [1, 2, 3]
    { index := 0x1000, subindex := 0 } (mkEntry 0x1000 0 "device_type" Ty.uint32)
    (by decide) rfl (by decide)

/-- C10: the index-based `add_receive_pdo_mapping` overload performs no
existence check: called on an address absent from the dictionary (with an
offset that passes the size check against the default entry's zero width),
it raises no error — in particular no `unknown_entry` — default-inserts a
fresh default-constructed entry at that address and registers a receive
mapping referring to it (by its empty name) together with its callback
COB-ID. -/
theorem C10_by_index_mapping_no_existence_check (d : DeviceState)
    (cob_id index subindex offset : Nat)
    (habs : d.dictionary { index := index, subindex := subindex } = none)
    (hoff : offset ≤ 8) :
    (Device.add_receive_pdo_mapping_by_index d cob_id index subindex offset).1 =
      Except.ok () ∧
    (Device.add_receive_pdo_mapping_by_index d cob_id index subindex
        offset).2.dictionary { index := index, subindex := subindex } =
      some defaultEntry ∧
    (Device.add_receive_pdo_mapping_by_index d cob_id index subindex
        offset).2.receive_pdo_mappings =
      { cob_id := cob_id, entry_name := defaultEntry.name, offset := offset } ::
        d.receive_pdo_mappings ∧
    (Device.add_receive_pdo_mapping_by_index d cob_id index subindex
        offset).2.cob_ids = d.cob_ids ++ [cob_id] := by
  have hno : ¬ (8 < offset + Utils.get_type_size defaultEntry.type) := by
    simp only [defaultEntry, Utils.get_type_size]
    omega
  simp only [Device.add_receive_pdo_mapping_by_index, habs]
  rw [if_neg hno]
  exact ⟨rfl, by simp, rfl, rfl⟩

/-- Witness for C10: the absent address 0x2000sub0 on `sampleDev`,
offset 0. -/
theorem C10_by_index_mapping_no_existence_check_witness :
    (Device.add_receive_pdo_mapping_by_index sampleDev 0x201 0x2000 0 0).1 =
      Except.ok () ∧
    (Device.add_receive_pdo_mapping_by_index sampleDev 0x201 0x2000 0
        0).2.dictionary { index := 0x2000, subindex := 0 } = some defaultEntry ∧
    (Device.add_receive_pdo_mapping_by_index sampleDev 0x201 0x2000 0
        0).2.receive_pdo_mappings =
      { cob_id := 0x201, entry_name := defaultEntry.name, offset := 0 } ::
        sampleDev.receive_pdo_mappings ∧
    (Device.add_receive_pdo_mapping_by_index sampleDev 0x201 0x2000 0
        0).2.cob_ids = sampleDev.cob_ids ++ [0x201] :=
  C10_by_index_mapping_no_existence_check sampleDev 0x201 0x2000 0 0
    (by decide) (by decide)

/-- C9: `set_entry` with the `sdo` write access method updates the cached
value before attempting the SDO download, and does not roll it back on
failure: when every download attempt times out, the call surfaces an
`sdo_error` of kind `response_timeout`, yet the dictionary holds the new
value and a subsequent `get_entry` with the `pdo` access method returns
the new value despite the reported failure. -/
theorem C9_set_entry_cache_updated_despite_sdo_failure (o : SdoOracle)
    (repeats node index subindex : Nat) (v : Value) (e : Entry) (st : Sim)
    (hd : st.dev.dictionary { index := index, subindex := subindex } = some e)
    (ht : v.type = e.type)
    (hdl : ∀ i, o.download i node { index := e.index, subindex := e.subindex } v.bytes =
      Except.error { kind := SdoErrorKind.response_timeout, abort_code := none }) :
    (Device.set_entry o repeats node index subindex v WriteAccessMethod.sdo st).1 =
      Except.error (DeviceError.sdo_error
        { kind := SdoErrorKind.response_timeout, abort_code := none }) ∧
    (Device.set_entry o repeats node index subindex v
        WriteAccessMethod.sdo st).2.dev.dictionary
      { index := index, subindex := subindex } = some { e with value := v } ∧
    (Device.get_entry o repeats node index subindex ReadAccessMethod.pdo
      (Device.set_entry o repeats node index subindex v WriteAccessMethod.sdo st).2).1 =
      Except.ok v := by
  have hfail := download_all_fail_go o node { index := e.index, subindex := e.subindex }
    v.bytes (fun i => ⟨_, hdl i⟩) (repeats + 1)
  simp only [Device.set_entry, hd]
  rw [if_neg (not_not_intro ht), if_pos (Or.inl trivial)]
  rcases hr : Device.set_entry_via_sdo o repeats node
      { index := e.index, subindex := e.subindex } v
      { st with dev := st.dev.setEntryValue { index := index, subindex := subindex } e v }
    with ⟨r1, st2⟩
  have hgo := hfail { st with
    dev := st.dev.setEntryValue { index := index, subindex := subindex } e v }
  rw [Device.set_entry_via_sdo] at hr
  rw [hr] at hgo
  have h1 : r1 = Except.error { kind := SdoErrorKind.response_timeout, abort_code := none } :=
    hgo.1
  have h2 : st2.dev =
      st.dev.setEntryValue { index := index, subindex := subindex } e v := hgo.2.2
  subst h1
  have hval : st2.dev.dictionary { index := index, subindex := subindex } =
      some { e with value := v } := by
    rw [h2]
    simp [DeviceState.setEntryValue]
  refine ⟨rfl, hval, ?_⟩
  simp [Device.get_entry, hval]

/-- Witness for C9: writing `device_type := 42` on `sampleDev` over the
always-timing-out oracle with the default retry count. -/
theorem C9_set_entry_cache_updated_despite_sdo_failure_witness :
    (Device.set_entry timeoutOracle Config.repeats_on_sdo_timeout 1 0x1000 0
        (Value.ofUInt32 42) WriteAccessMethod.sdo sim0).1 =
      Except.error (DeviceError.sdo_error
        { kind := SdoErrorKind.response_timeout, abort_code := none }) ∧
    (Device.set_entry timeoutOracle Config.repeats_on_sdo_timeout 1 0x1000 0
        (Value.ofUInt32 42) WriteAccessMethod.sdo sim0).2.dev.dictionary
      { index := 0x1000, subindex := 0 } =
      some { mkEntry 0x1000 0 "device_type" Ty.uint32 with value := Value.ofUInt32 42 } ∧
    (Device.get_entry timeoutOracle Config.repeats_on_sdo_timeout 1 0x1000 0
        ReadAccessMethod.pdo
        (Device.set_entry timeoutOracle Config.repeats_on_sdo_timeout 1 0x1000 0
          (Value.ofUInt32 42) WriteAccessMethod.sdo sim0).2).1 =
      Except.ok (Value.ofUInt32 42) :=
  C9_set_entry_cache_updated_despite_sdo_failure timeoutOracle
    Config.repeats_on_sdo_timeout 1 0x1000 0 (Value.ofUInt32 42)
    (mkEntry 0x1000 0 "device_type" Ty.uint32) sim0 rfl rfl (fun _ => rfl)

lemma sameShape_refl (d : Address → Option Entry) : SameShape d d :=
  fun _ => rfl

lemma sameShape_trans {d d' d'' : Address → Option Entry}
    (h : SameShape d d') (h' : SameShape d' d'') : SameShape d d'' :=
  fun a => (h a).trans (h' a)

/-- Transport a dictionary lookup along shape equality: the entry found
afterwards has the same address fields and type. -/
lemma sameShape_lookup {d d' : Address → Option Entry} {a : Address} {e : Entry}
    (h : SameShape d d') (he : d a = some e) :
    ∃ e', d' a = some e' ∧ e'.index = e.index ∧ e'.subindex = e.subindex ∧
      e'.type = e.type := by
  have := h a
  rw [he] at this
  cases hd' : d' a with
  | none => rw [hd'] at this; simp at this
  | some e' =>
    rw [hd'] at this
    simp only [Option.map_some', Option.some.injEq, Entry.shape,
      Prod.mk.injEq] at this
    exact ⟨e', rfl, this.1.symm, this.2.1.symm, this.2.2.symm⟩

/-- Replacing an entry's cached value preserves the dictionary's shape. -/
lemma setEntryValue_sameShape (d : DeviceState) (addr : Address) (e : Entry)
    (v : Value) (hd : d.dictionary addr = some e) :
    SameShape d.dictionary (d.setEntryValue addr e v).dictionary := by
  intro a
  simp only [DeviceState.setEntryValue]
  by_cases ha : a = addr
  · subst ha
    rw [hd, if_pos rfl]
    rfl
  · rw [if_neg ha]

/-- Decoding the 4-byte little-endian encoding of `c < 2^32` gives back
`c`. -/
lemma decode_encode4 (c : Nat) (hc : c < 2 ^ 32) :
    decodeLE (encodeLE 4 c) = c := by
  simp only [encodeLE, decodeLE]
  omega

/-- The disable idiom `c ^= (-1 ^ c) & (1 << 31)` sets bit 31. -/
lemma setBit31Xor_eq (c : Nat) : setBit31Xor c = c ||| 2 ^ 31 := by
  unfold setBit31Xor
  apply Nat.eq_of_testBit_eq
  intro i
  simp only [Nat.testBit_xor, Nat.testBit_land, Nat.testBit_lor,
    Nat.testBit_two_pow, Nat.testBit_two_pow_sub_one]
  rcases eq_or_ne (31 : Nat) i with h | h
  · subst h
    cases hcb : c.testBit 31 <;> simp
  · simp [h]

/-- The enable idiom `c ^= (0 ^ c) & (1 << 31)` applied after setting bit
31 yields the original value with bit 31 cleared, i.e. `c % 2^31` for
`c < 2^32`. -/
lemma clearBit31Xor_setBit31Xor (c : Nat) (hc : c < 2 ^ 32) :
    clearBit31Xor (setBit31Xor c) = c % 2 ^ 31 := by
  rw [setBit31Xor_eq]
  unfold clearBit31Xor
  apply Nat.eq_of_testBit_eq
  intro i
  simp only [Nat.zero_xor, Nat.testBit_xor, Nat.testBit_land, Nat.testBit_lor,
    Nat.testBit_two_pow, Nat.testBit_mod_two_pow]
  rcases eq_or_ne (31 : Nat) i with h | h
  · subst h
    cases hcb : c.testBit 31 <;> simp
  · rcases lt_or_ge i 32 with h32 | h32
    · have hi : i < 31 := by
        rcases Nat.lt_or_ge i 31 with h' | h'
        · exact h'
        · omega
      simp [h, hi]
    · have hcb : c.testBit i = false :=
        Nat.testBit_eq_false_of_lt
          (lt_of_lt_of_le hc (Nat.pow_le_pow_right (by omega) h32))
      have hi : ¬ i < 31 := by omega
      simp [h, hi, hcb]

/-- A successful SDO read through `get_entry`: one upload operation is
issued at the entry's address, the returned value carries the uploaded
bytes, and the dictionary keeps its shape. -/
lemma get_entry_sdo_ok_ex (o : SdoOracle) (c repeats node index subindex : Nat)
    (st : Sim) (e : Entry) (ho : AlwaysOk o c)
    (hd : st.dev.dictionary { index := index, subindex := subindex } = some e)
    (hei : e.index = index) (hes : e.subindex = subindex) :
    ∃ st', Device.get_entry o repeats node index subindex ReadAccessMethod.sdo st =
        (Except.ok { type := e.type, bytes := encodeLE 4 c }, st') ∧
      st'.trace = st.trace ++ [CoreOp.sdoUpload node index subindex] ∧
      SameShape st.dev.dictionary st'.dev.dictionary := by
  subst hei hes
  simp only [Device.get_entry, hd]
  rw [if_pos (Or.inl trivial)]
  simp only [Device.get_entry_via_sdo, get_entry_via_sdo_go, sdoUploadCall, ho.1]
  exact ⟨_, rfl, rfl,
    setEntryValue_sameShape st.dev { index := e.index, subindex := e.subindex } e
      { type := e.type, bytes := encodeLE 4 c } hd⟩

/-- A successful SDO write through `set_entry`: one download operation is
issued at the entry's address with the value's bytes, and the dictionary
keeps its shape. -/
lemma set_entry_sdo_ok_ex (o : SdoOracle) (c repeats node index subindex : Nat)
    (st : Sim) (e : Entry) (v : Value) (ho : AlwaysOk o c)
    (hd : st.dev.dictionary { index := index, subindex := subindex } = some e)
    (hei : e.index = index) (hes : e.subindex = subindex) (ht : v.type = e.type) :
    ∃ st', Device.set_entry o repeats node index subindex v WriteAccessMethod.sdo st =
        (Except.ok (), st') ∧
      st'.trace = st.trace ++ [CoreOp.sdoDownload node index subindex v.bytes] ∧
      SameShape st.dev.dictionary st'.dev.dictionary := by
  subst hei hes
  simp only [Device.set_entry, hd]
  rw [if_neg (not_not_intro ht), if_pos (Or.inl trivial)]
  simp only [Device.set_entry_via_sdo, set_entry_via_sdo_go, sdoDownloadCall, ho.2]
  exact ⟨_, rfl, rfl,
    setEntryValue_sameShape st.dev { index := e.index, subindex := e.subindex } e v hd⟩

/-- The mapping-word loop of `write_entry`: with well-typed `uint32`
entries at mapping subindexes `offset+1, offset+2, ...` and an always-ok
oracle, it succeeds, appends exactly one download per word at consecutive
subindexes, and keeps the dictionary's shape. -/
lemma write_entry_go_ok (o : SdoOracle) (c repeats node mapp : Nat)
    (ho : AlwaysOk o c) :
    ∀ (rest : List Nat) (offset : Nat) (st : Sim),
      offset + rest.length ≤ 255 →
      (∀ i, i < rest.length → ∃ e, st.dev.dictionary
          { index := mapp, subindex := offset + 1 + i } = some e ∧
          e.index = mapp ∧ e.subindex = offset + 1 + i ∧ e.type = Ty.uint32) →
      ∃ st', Device.write_entry_go o repeats node mapp rest offset st =
          (Except.ok (), st') ∧
        st'.trace = st.trace ++ (rest.enumFrom (offset + 1)).map
          (fun p => CoreOp.sdoDownload node mapp p.1 (encodeLE 4 p.2)) ∧
        SameShape st.dev.dictionary st'.dev.dictionary := by
  intro rest
  induction rest with
  | nil =>
    intro offset st _ _
    exact ⟨st, rfl, by simp [List.enumFrom], sameShape_refl st.dev.dictionary⟩
  | cons w ws ih =>
    intro offset st hbound hentries
    have hofs : (offset + 1) % 256 = offset + 1 := by
      apply Nat.mod_eq_of_lt
      simp only [List.length_cons] at hbound
      omega
    obtain ⟨e, hde, hei, hes, het⟩ := hentries 0 (by simp)
    simp only [Nat.add_zero] at hde hes
    obtain ⟨st1, hE1, htr1, hsh1⟩ :=
      set_entry_sdo_ok_ex o c repeats node mapp (offset + 1) st e
        (Value.ofUInt32 w) ho hde hei hes het.symm
    have hws : ∀ i, i < ws.length → ∃ e', st1.dev.dictionary
        { index := mapp, subindex := offset + 1 + 1 + i } = some e' ∧
        e'.index = mapp ∧ e'.subindex = offset + 1 + 1 + i ∧ e'.type = Ty.uint32 := by
      intro i hi
      have harith : offset + 1 + (i + 1) = offset + 1 + 1 + i := by omega
      obtain ⟨e0, hde0, hei0, hes0, het0⟩ := hentries (i + 1) (by simp; omega)
      rw [harith] at hde0 hes0
      obtain ⟨e', hde', hi', hs', ht'⟩ := sameShape_lookup hsh1 hde0
      exact ⟨e', hde', hi'.trans hei0, hs'.trans hes0, ht'.trans het0⟩
    obtain ⟨st2, hE2, htr2, hsh2⟩ := ih (offset + 1) st1
      (by simp only [List.length_cons] at hbound; omega) hws
    refine ⟨st2, ?_, ?_, sameShape_trans hsh1 hsh2⟩
    · simp only [Device.write_entry_go, hofs, hE1, andThen, hE2]
    · rw [htr2, htr1]
      simp [List.enumFrom, Value.ofUInt32]

/-- C1: for every TPDO number and every list of at most 255 mapping words,
`map_tpdo_in_device(tpdo_no, entries, transmit_type)` — against dictionary
entries of the standard types and an SDO server answering every transfer —
issues exactly this SDO operation sequence, in order: read the COB-ID `c`
at communication subindex 1; write it back with bit 31 set (disable);
write 0 to mapping subindex 0; write the k mapping words to mapping
subindexes 1..k in list order; write k to mapping subindex 0; write the
transmit type to communication subindex 2; finally write the original
COB-ID with bit 31 cleared (`c % 2^31`) to communication subindex 1
(enable) — where the communication/mapping parameter indexes of TPDO n are
`0x1800 + n - 1` and `0x1A00 + n - 1`. -/
theorem C1_map_tpdo_in_device_sdo_sequence (o : SdoOracle) (repeats node : Nat)
    (tpdo_no : TPDO_NO) (entries : List Nat) (tt c : Nat) (st : Sim)
    (comm mapp : Nat)
    (hidx : Device.get_tpdo_indexes tpdo_no = (comm, mapp))
    (ho : AlwaysOk o c) (hc : c < 2 ^ 32) (hk : entries.length ≤ 255)
    (h1 : ∃ e, st.dev.dictionary { index := comm, subindex := 1 } = some e ∧
      e.index = comm ∧ e.subindex = 1 ∧ e.type = Ty.uint32)
    (h2 : ∃ e, st.dev.dictionary { index := comm, subindex := 2 } = some e ∧
      e.index = comm ∧ e.subindex = 2 ∧ e.type = Ty.uint8)
    (h3 : ∃ e, st.dev.dictionary { index := mapp, subindex := 0 } = some e ∧
      e.index = mapp ∧ e.subindex = 0 ∧ e.type = Ty.uint8)
    (h4 : ∀ i, i < entries.length →
      ∃ e, st.dev.dictionary { index := mapp, subindex := i + 1 } = some e ∧
        e.index = mapp ∧ e.subindex = i + 1 ∧ e.type = Ty.uint32) :
    comm = 0x1800 + (tpdoNum tpdo_no - 1) ∧
    mapp = 0x1A00 + (tpdoNum tpdo_no - 1) ∧
    (Device.map_tpdo_in_device o repeats node tpdo_no entries tt st).1 =
      Except.ok () ∧
    (Device.map_tpdo_in_device o repeats node tpdo_no entries tt st).2.trace =
      st.trace ++
        ([CoreOp.sdoUpload node comm 1,
          CoreOp.sdoDownload node comm 1 (encodeLE 4 (c ||| 2 ^ 31)),
          CoreOp.sdoDownload node mapp 0 (encodeLE 1 0)] ++
         (entries.enumFrom 1).map
           (fun p => CoreOp.sdoDownload node mapp p.1 (encodeLE 4 p.2)) ++
         [CoreOp.sdoDownload node mapp 0 (encodeLE 1 entries.length),
          CoreOp.sdoDownload node comm 2 (encodeLE 1 tt),
          CoreOp.sdoDownload node comm 1 (encodeLE 4 (c % 2 ^ 31))]) := by
  obtain ⟨e1, hd1, he1i, he1s, he1t⟩ := h1
  obtain ⟨e2, hd2, he2i, he2s, he2t⟩ := h2
  obtain ⟨e3, hd3, he3i, he3s, he3t⟩ := h3
  have hcm : comm = 0x1800 + (tpdoNum tpdo_no - 1) ∧
      mapp = 0x1A00 + (tpdoNum tpdo_no - 1) := by
    cases tpdo_no <;>
      simp only [Device.get_tpdo_indexes, tpdoNum, Prod.mk.injEq] at hidx ⊢ <;>
      omega
  have hv : Value.toUInt32 { type := e1.type, bytes := encodeLE 4 c } = c := by
    simp [Value.toUInt32, decode_encode4 c hc]
  have hset : setBit31Xor c = c ||| 2 ^ 31 := setBit31Xor_eq c
  have hclear : clearBit31Xor (c ||| 2 ^ 31) = c % 2 ^ 31 := by
    rw [← setBit31Xor_eq]
    exact clearBit31Xor_setBit31Xor c hc
  obtain ⟨st1, hE1, htr1, hsh1⟩ :=
    get_entry_sdo_ok_ex o c repeats node comm 1 st e1 ho hd1 he1i he1s
  obtain ⟨e1b, hd1b, h1bi, h1bs, h1bt⟩ := sameShape_lookup hsh1 hd1
  obtain ⟨st2, hE2, htr2, hsh2⟩ :=
    set_entry_sdo_ok_ex o c repeats node comm 1 st1 e1b
      (Value.ofUInt32 (c ||| 2 ^ 31)) ho hd1b (h1bi.trans he1i)
      (h1bs.trans he1s) (by simp [Value.ofUInt32, h1bt, he1t])
  obtain ⟨e3b, hd3b, h3bi, h3bs, h3bt⟩ :=
    sameShape_lookup (sameShape_trans hsh1 hsh2) hd3
  obtain ⟨st3, hE3, htr3, hsh3⟩ :=
    set_entry_sdo_ok_ex o c repeats node mapp 0 st2 e3b
      (Value.ofUInt8 0) ho hd3b (h3bi.trans he3i) (h3bs.trans he3s)
      (by simp [Value.ofUInt8, h3bt, he3t])
  have hsh13 : SameShape st.dev.dictionary st3.dev.dictionary :=
    sameShape_trans hsh1 (sameShape_trans hsh2 hsh3)
  have hw : ∀ i, i < entries.length →
      ∃ e', st3.dev.dictionary { index := mapp, subindex := 0 + 1 + i } = some e' ∧
        e'.index = mapp ∧ e'.subindex = 0 + 1 + i ∧ e'.type = Ty.uint32 := by
    intro i hi
    obtain ⟨e0, hde0, hei0, hes0, het0⟩ := h4 i hi
    have harith : i + 1 = 0 + 1 + i := by omega
    rw [harith] at hde0 hes0
    obtain ⟨e', hde', hi', hs', ht'⟩ := sameShape_lookup hsh13 hde0
    exact ⟨e', hde', hi'.trans hei0, hs'.trans hes0, ht'.trans het0⟩
  obtain ⟨st4, hE4, htr4, hsh4⟩ :=
    write_entry_go_ok o c repeats node mapp ho entries 0 st3 (by omega) hw
  have hsh14 : SameShape st.dev.dictionary st4.dev.dictionary :=
    sameShape_trans hsh13 hsh4
  obtain ⟨e3c, hd3c, h3ci, h3cs, h3ct⟩ := sameShape_lookup hsh14 hd3
  obtain ⟨st5, hE5, htr5, hsh5⟩ :=
    set_entry_sdo_ok_ex o c repeats node mapp 0 st4 e3c
      (Value.ofUInt8 entries.length) ho hd3c (h3ci.trans he3i)
      (h3cs.trans he3s) (by simp [Value.ofUInt8, h3ct, he3t])
  have hsh15 : SameShape st.dev.dictionary st5.dev.dictionary :=
    sameShape_trans hsh14 hsh5
  obtain ⟨e2b, hd2b, h2bi, h2bs, h2bt⟩ := sameShape_lookup hsh15 hd2
  obtain ⟨st6, hE6, htr6, hsh6⟩ :=
    set_entry_sdo_ok_ex o c repeats node comm 2 st5 e2b
      (Value.ofUInt8 tt) ho hd2b (h2bi.trans he2i) (h2bs.trans he2s)
      (by simp [Value.ofUInt8, h2bt, he2t])
  have hsh16 : SameShape st.dev.dictionary st6.dev.dictionary :=
    sameShape_trans hsh15 hsh6
  obtain ⟨e1c, hd1c, h1ci, h1cs, h1ct⟩ := sameShape_lookup hsh16 hd1
  obtain ⟨st7, hE7, htr7, hsh7⟩ :=
    set_entry_sdo_ok_ex o c repeats node comm 1 st6 e1c
      (Value.ofUInt32 (c % 2 ^ 31)) ho hd1c (h1ci.trans he1i)
      (h1cs.trans he1s) (by simp [Value.ofUInt32, h1ct, he1t])
  have hgoal : Device.map_tpdo_in_device o repeats node tpdo_no entries tt st =
      (Except.ok (), st7) := by
    simp only [Device.map_tpdo_in_device, hidx, hE1]
    rw [hv, hset, hclear]
    rw [hE2]
    simp only [andThen]
    rw [hE3]
    simp only [andThen, Device.write_entry]
    rw [hE4]
    simp only [andThen]
    rw [hE5]
    simp only [andThen]
    rw [hE6]
    simp only [andThen]
    rw [hE7]
  refine ⟨hcm.1, hcm.2, ?_, ?_⟩
  · rw [hgoal]
  · rw [hgoal]
    simp only
    rw [htr7, htr6, htr5, htr4, htr3, htr2, htr1]
    simp [Value.ofUInt32, Value.ofUInt8, List.append_assoc]

/-- Witness for C1: remapping TPDO1 on `tpdoDev` with the three mapping
words of the spec's scenario 6, transmit type 255, against an oracle whose
reads return COB-ID 0x201. -/
theorem C1_map_tpdo_in_device_sdo_sequence_witness :
    (0x1800 : Nat) = 0x1800 + (tpdoNum TPDO_NO.TPDO_1 - 1) ∧
    (0x1A00 : Nat) = 0x1A00 + (tpdoNum TPDO_NO.TPDO_1 - 1) ∧
    (Device.map_tpdo_in_device (okOracle 0x201) 1 1 TPDO_NO.TPDO_1
        [0x606C0020, 0x60410010, 0x603F0010] 255 simC1).1 = Except.ok () ∧
    (Device.map_tpdo_in_device (okOracle 0x201) 1 1 TPDO_NO.TPDO_1
        [0x606C0020, 0x60410010, 0x603F0010] 255 simC1).2.trace =
      simC1.trace ++
        ([CoreOp.sdoUpload 1 0x1800 1,
          CoreOp.sdoDownload 1 0x1800 1 (encodeLE 4 (0x201 ||| 2 ^ 31)),
          CoreOp.sdoDownload 1 0x1A00 0 (encodeLE 1 0)] ++
         (([0x606C0020, 0x60410010, 0x603F0010] : List Nat).enumFrom 1).map
           (fun p => CoreOp.sdoDownload 1 0x1A00 p.1 (encodeLE 4 p.2)) ++
         [CoreOp.sdoDownload 1 0x1A00 0
            (encodeLE 1 ([0x606C0020, 0x60410010, 0x603F0010] : List Nat).length),
          CoreOp.sdoDownload 1 0x1800 2 (encodeLE 1 255),
          CoreOp.sdoDownload 1 0x1800 1 (encodeLE 4 (0x201 % 2 ^ 31))]) :=
  C1_map_tpdo_in_device_sdo_sequence (okOracle 0x201) 1 1 TPDO_NO.TPDO_1
    [0x606C0020, 0x60410010, 0x603F0010] 255 0x201 simC1 0x1800 0x1A00
    rfl ⟨fun _ _ _ => rfl, fun _ _ _ _ => rfl⟩ (by decide) (by decide)
    ⟨mkEntry 0x1800 1 "tpdo1_cob_id" Ty.uint32, rfl, rfl, rfl, rfl⟩
    ⟨mkEntry 0x1800 2 "tpdo1_transmission_type" Ty.uint8, rfl, rfl, rfl, rfl⟩
    ⟨mkEntry 0x1A00 0 "tpdo1_mapping_count" Ty.uint8, rfl, rfl, rfl, rfl⟩
    (by
      intro i hi
      simp only [List.length_cons, List.length_nil] at hi
      interval_cases i
      · exact ⟨mkEntry 0x1A00 1 "tpdo1_mapping_1" Ty.uint32, rfl, rfl, rfl, rfl⟩
      · exact ⟨mkEntry 0x1A00 2 "tpdo1_mapping_2" Ty.uint32, rfl, rfl, rfl, rfl⟩
      · exact ⟨mkEntry 0x1A00 3 "tpdo1_mapping_3" Ty.uint32, rfl, rfl, rfl, rfl⟩)

end kaco
